import Mathlib

/-!
Verification of the `eight-segment` driver (`src/src/lib.rs`).

The driver owns eight abstract output lines (segments A–G plus the decimal
point P) and a polarity flag `high_on`.  We model the observable state of a
pin as the last logic level written to it (`true` = logic-high), so the Rust
struct of pin handles becomes a record of eight booleans together with the
polarity flag.  `PinState::from(b)` is the identity on booleans and
`set_state` records the level, so each Rust method becomes a pure state
transformer on this record.
-/

/-- State of an `EightSegment` driver (lib.rs lines 98–108): the polarity
flag together with the last logic level written to each of the eight lines
(`true` = logic-high). -/
structure EightSegment where
  high_on : Bool
  seg_a : Bool
  seg_b : Bool
  seg_c : Bool
  seg_d : Bool
  seg_e : Bool
  seg_f : Bool
  seg_g : Bool
  seg_p : Bool
deriving DecidableEq, Repr

/-- `EightSegment::blank` (lib.rs lines 111–120): writes
`PinState::from(self.high_on)` to every one of the eight lines. -/
def blank (s : EightSegment) : EightSegment :=
  { s with
    seg_a := s.high_on
    seg_b := s.high_on
    seg_c := s.high_on
    seg_d := s.high_on
    seg_e := s.high_on
    seg_f := s.high_on
    seg_g := s.high_on
    seg_p := s.high_on }

/-- `EightSegment::set_segments` (lib.rs lines 122–141): writes
`PinState::from(seg_x_on ^ !self.high_on)` to each line. -/
def set_segments (s : EightSegment)
    (seg_a_on seg_b_on seg_c_on seg_d_on seg_e_on seg_f_on seg_g_on seg_p_on :
      Bool) : EightSegment :=
  { s with
    seg_a := xor seg_a_on !s.high_on
    seg_b := xor seg_b_on !s.high_on
    seg_c := xor seg_c_on !s.high_on
    seg_d := xor seg_d_on !s.high_on
    seg_e := xor seg_e_on !s.high_on
    seg_f := xor seg_f_on !s.high_on
    seg_g := xor seg_g_on !s.high_on
    seg_p := xor seg_p_on !s.high_on }

/-- The digit-decoding `match` inside `EightSegment::display` (lib.rs lines
152–170).  The tuple components are bound, in order, to
`(seg_a_on, seg_f_on, seg_b_on, seg_g_on, seg_e_on, seg_c_on, seg_d_on)`. -/
def digitSegments (count : Nat) :
    Bool × Bool × Bool × Bool × Bool × Bool × Bool :=
  match count with
  | 0x0 => (true, true, true, false, true, true, true)
  | 0x1 => (false, false, true, false, false, true, false)
  | 0x2 => (true, false, true, true, true, false, true)
  | 0x3 => (true, false, true, true, false, true, true)
  | 0x4 => (false, true, true, true, false, true, false)
  | 0x5 => (true, true, false, true, false, true, true)
  | 0x6 => (true, true, false, true, true, true, true)
  | 0x7 => (true, false, true, false, false, true, false)
  | 0x8 => (true, true, true, true, true, true, true)
  | 0x9 => (true, true, true, true, false, true, false)
  | 0xA => (true, true, true, false, true, true, false)
  | 0xB => (false, true, false, true, true, true, true)
  | 0xC => (false, false, false, true, true, false, true)
  | 0xD => (false, false, true, true, true, true, true)
  | 0xE => (true, true, false, true, true, false, true)
  | 0xF => (true, true, false, true, true, false, false)
  | _ => (true, true, true, true, true, true, true)

/-- `EightSegment::display` (lib.rs lines 143–182): decode the digit and
invoke `set_segments` with the decoded lit flags and `seg_p_on` for P. -/
def display (s : EightSegment) (count : Nat) (seg_p_on : Bool) :
    EightSegment :=
  let (seg_a_on, seg_f_on, seg_b_on, seg_g_on, seg_e_on, seg_c_on, seg_d_on) :=
    digitSegments count
  set_segments s seg_a_on seg_b_on seg_c_on seg_d_on seg_e_on seg_f_on
    seg_g_on seg_p_on

/-- The logical (polarity-independent) lit pattern a driver state shows, in
segment order A, B, C, D, E, F, G, P: a segment is lit exactly when its line
holds the energizing level, i.e. `lit = level XOR (NOT high_on)`. -/
def litOf (s : EightSegment) :
    Bool × Bool × Bool × Bool × Bool × Bool × Bool × Bool :=
  (xor s.seg_a !s.high_on, xor s.seg_b !s.high_on, xor s.seg_c !s.high_on,
   xor s.seg_d !s.high_on, xor s.seg_e !s.high_on, xor s.seg_f !s.high_on,
   xor s.seg_g !s.high_on, xor s.seg_p !s.high_on)

/-- The decoding table of spec §4.1, digit → (A, B, C, D, E, F, G) lit
booleans, transcribed from the spec's words (for comparison with the table
in the code). -/
def specDigitTable (digit : Nat) :
    Bool × Bool × Bool × Bool × Bool × Bool × Bool :=
  match digit with
  | 0x0 => (true, true, true, true, true, true, false)
  | 0x1 => (false, true, true, false, false, false, false)
  | 0x2 => (true, true, false, true, true, false, true)
  | 0x3 => (true, true, true, true, false, false, true)
  | 0x4 => (false, true, true, false, false, true, true)
  | 0x5 => (true, false, true, true, false, true, true)
  | 0x6 => (true, false, true, true, true, true, true)
  | 0x7 => (true, true, true, false, false, false, false)
  | 0x8 => (true, true, true, true, true, true, true)
  | 0x9 => (true, true, true, true, false, true, true)
  | 0xA => (true, true, true, false, true, true, true)
  | 0xB => (false, true, true, true, true, true, true)
  | 0xC => (false, false, false, true, true, false, true)
  | 0xD => (false, true, true, true, true, false, true)
  | 0xE => (true, false, false, true, true, true, true)
  | 0xF => (true, false, false, false, true, true, true)
  | _ => (true, true, true, true, true, true, true)

/-- The table of spec §4.1 amended at the three rows where it disagrees with
the code: 0x9 has D = 0, 0xA has G = 0, and 0xB has B = 0. -/
def specDigitTableAmended (digit : Nat) :
    Bool × Bool × Bool × Bool × Bool × Bool × Bool :=
  match digit with
  | 0x9 => (true, true, true, false, false, true, true)
  | 0xA => (true, true, true, false, true, true, false)
  | 0xB => (false, false, true, true, true, true, true)
  | d => specDigitTable d

/-- A sample active-high driver whose lines all start at logic-low. -/
def sampleHigh : EightSegment :=
  ⟨true, false, false, false, false, false, false, false, false⟩

/-- A sample active-low driver whose lines all start at logic-low. -/
def sampleLow : EightSegment :=
  ⟨false, false, false, false, false, false, false, false, false⟩

/-- Attach the decimal-point lit flag to a seven-segment A–G tuple, giving
the full eight-segment lit pattern in order A, B, C, D, E, F, G, P. -/
def withPoint (t : Bool × Bool × Bool × Bool × Bool × Bool × Bool)
    (p : Bool) : Bool × Bool × Bool × Bool × Bool × Bool × Bool × Bool :=
  (t.1, t.2.1, t.2.2.1, t.2.2.2.1, t.2.2.2.2.1, t.2.2.2.2.2.1,
   t.2.2.2.2.2.2, p)

/-- One of the eight segment roles. -/
inductive Seg
  | A | B | C | D | E | F | G | P
deriving DecidableEq, Repr

/-- The physical level a driver state holds on a given line. -/
def segLevel (s : EightSegment) : Seg → Bool
  | Seg.A => s.seg_a
  | Seg.B => s.seg_b
  | Seg.C => s.seg_c
  | Seg.D => s.seg_d
  | Seg.E => s.seg_e
  | Seg.F => s.seg_f
  | Seg.G => s.seg_g
  | Seg.P => s.seg_p

/-- Select the lit argument of `set_segments` that belongs to a given
segment role. -/
def segLit (L : Seg) (a b c d e f g p : Bool) : Bool :=
  match L with
  | Seg.A => a
  | Seg.B => b
  | Seg.C => c
  | Seg.D => d
  | Seg.E => e
  | Seg.F => f
  | Seg.G => g
  | Seg.P => p

/-- C1: for every combination of the eight lit booleans and both values of
the polarity flag, `set_segments` writes each line to logic-high iff
`lit XOR (NOT high_on)` is true; equivalently, when `high_on` is true the
level written equals the lit flag, and when it is false it equals its
negation. -/
theorem C1_set_segments_levels (s : EightSegment)
    (a b c d e f g p : Bool) :
    ((set_segments s a b c d e f g p).seg_a = xor a !s.high_on ∧
     (set_segments s a b c d e f g p).seg_b = xor b !s.high_on ∧
     (set_segments s a b c d e f g p).seg_c = xor c !s.high_on ∧
     (set_segments s a b c d e f g p).seg_d = xor d !s.high_on ∧
     (set_segments s a b c d e f g p).seg_e = xor e !s.high_on ∧
     (set_segments s a b c d e f g p).seg_f = xor f !s.high_on ∧
     (set_segments s a b c d e f g p).seg_g = xor g !s.high_on ∧
     (set_segments s a b c d e f g p).seg_p = xor p !s.high_on) ∧
    ((set_segments s a b c d e f g p).seg_a = cond s.high_on a !a ∧
     (set_segments s a b c d e f g p).seg_b = cond s.high_on b !b ∧
     (set_segments s a b c d e f g p).seg_c = cond s.high_on c !c ∧
     (set_segments s a b c d e f g p).seg_d = cond s.high_on d !d ∧
     (set_segments s a b c d e f g p).seg_e = cond s.high_on e !e ∧
     (set_segments s a b c d e f g p).seg_f = cond s.high_on f !f ∧
     (set_segments s a b c d e f g p).seg_g = cond s.high_on g !g ∧
     (set_segments s a b c d e f g p).seg_p = cond s.high_on p !p) := by
  obtain ⟨h, _, _, _, _, _, _, _, _⟩ := s
  cases h <;> simp [set_segments]

/-- C2, counterexample: the spec's table gives digit 0x9 the pattern
A=1, B=1, C=1, D=1, E=0, F=1, G=1, but the lit pattern actually produced by
the code at digit 0x9 has D=0, so the claim fails at digit 0x9 with
decimal point off on an active-high driver. -/
theorem C2_counterexample :
    specDigitTable 0x9 = (true, true, true, true, false, true, true) ∧
    litOf (display sampleHigh 0x9 false) ≠
      withPoint (specDigitTable 0x9) false := by
  refine ⟨rfl, fun hEq => ?_⟩
  exact absurd (congrArg (fun t => t.2.2.2.1) hEq) (by decide)

/-- C2, amended: for every digit in [0x0, 0xF], every polarity and every
prior line state, `display digit p` produces exactly the lit pattern of the
spec table amended at rows 0x9 (D=0), 0xA (G=0) and 0xB (B=0), with the P
segment equal to the decimal-point flag. -/
theorem C2_display_matches_amended_table (s : EightSegment) (n : Nat)
    (hn : n ≤ 0xF) (p : Bool) :
    litOf (display s n p) = withPoint (specDigitTableAmended n) p := by
  obtain ⟨h, _, _, _, _, _, _, _, _⟩ := s
  interval_cases n <;> cases h <;> cases p <;> rfl

/-- C2, witness: the amended theorem evaluated at digit 0x3 with decimal
point off on a concrete active-high driver. -/
theorem C2_witness :
    (0x3 : Nat) ≤ 0xF ∧
    litOf (display sampleHigh 0x3 false) =
      withPoint (specDigitTableAmended 0x3) false :=
  ⟨by decide, C2_display_matches_amended_table sampleHigh 0x3 (by decide) false⟩

/-- C3: the code writes `high_on` — the energizing level — to every line in
`blank`, so on a concrete active-high driver `blank` differs from
`set_segments` with all lit flags false, and after `blank` every segment is
lit rather than off. -/
theorem C3_blank_energizes :
    blank sampleHigh ≠
      set_segments sampleHigh false false false false false false false
        false ∧
    litOf (blank sampleHigh) =
      (true, true, true, true, true, true, true, true) ∧
    litOf (set_segments sampleHigh false false false false false false false
        false) =
      (false, false, false, false, false, false, false, false) := by
  refine ⟨by decide, rfl, rfl⟩

/-- C4: for every digit value at least 0x10 and both decimal-point flags,
`display` produces the all-lit pattern for segments A–G, with the P segment
following the decimal-point flag. -/
theorem C4_display_out_of_range (s : EightSegment) (n : Nat)
    (hn : 0x10 ≤ n) (p : Bool) :
    litOf (display s n p) = (true, true, true, true, true, true, true, p) := by
  obtain ⟨k, rfl⟩ := Nat.exists_eq_add_of_le' hn
  obtain ⟨h, _, _, _, _, _, _, _, _⟩ := s
  cases h <;> cases p <;> rfl

/-- C4, witness: the out-of-range theorem evaluated at digit 0xFF with the
decimal point on, on a concrete active-low driver. -/
theorem C4_witness :
    (0x10 : Nat) ≤ 0xFF ∧
    litOf (display sampleLow 0xFF true) =
      (true, true, true, true, true, true, true, true) :=
  ⟨by decide, C4_display_out_of_range sampleLow 0xFF (by decide) true⟩

/-- C5, counterexample: on an active-low driver, `display 0xB false` does
not leave the lines at the levels the claim states (A=high, B=low, C=low,
D=low, E=low, F=low, G=low, P=high): the code's glyph for 0xB has the B
segment unlit, so line B is left at logic-high, not logic-low. -/
theorem C5_counterexample :
    display sampleLow 0xB false ≠
      { high_on := false, seg_a := true, seg_b := false, seg_c := false,
        seg_d := false, seg_e := false, seg_f := false, seg_g := false,
        seg_p := true } := by
  decide

/-- C5, amended: with `high_on = false`, `display 0xB false` leaves the
levels at A=high, B=high, C=low, D=low, E=low, F=low, G=low, P=high — the
lit pattern A=0, B=0, C=1, D=1, E=1, F=1, G=1, P=0 inverted — for every
prior state of the lines. -/
theorem C5_display_B_active_low (a b c d e f g p : Bool) :
    display ⟨false, a, b, c, d, e, f, g, p⟩ 0xB false =
      { high_on := false, seg_a := true, seg_b := true, seg_c := false,
        seg_d := false, seg_e := false, seg_f := false, seg_g := false,
        seg_p := true } :=
  rfl

/-- C6: for a fixed digit and decimal-point flag, the levels written by
`display` on an active-high driver are, line by line, the complement of
those written on an active-low driver, whatever the prior line states. -/
theorem C6_polarity_symmetry (sh sl : EightSegment) (hh : sh.high_on = true)
    (hl : sl.high_on = false) (n : Nat) (p : Bool) :
    (display sh n p).seg_a = !(display sl n p).seg_a ∧
    (display sh n p).seg_b = !(display sl n p).seg_b ∧
    (display sh n p).seg_c = !(display sl n p).seg_c ∧
    (display sh n p).seg_d = !(display sl n p).seg_d ∧
    (display sh n p).seg_e = !(display sl n p).seg_e ∧
    (display sh n p).seg_f = !(display sl n p).seg_f ∧
    (display sh n p).seg_g = !(display sl n p).seg_g ∧
    (display sh n p).seg_p = !(display sl n p).seg_p := by
  rcases ht : digitSegments n with ⟨a, f, b, g, e, c, d⟩
  simp [display, ht, set_segments, hh, hl]

/-- C6, witness: the polarity-symmetry theorem evaluated at digit 0x5 with
the decimal point on, for the two concrete sample drivers. -/
theorem C6_witness :
    sampleHigh.high_on = true ∧ sampleLow.high_on = false ∧
    ((display sampleHigh 0x5 true).seg_a = !(display sampleLow 0x5 true).seg_a ∧
     (display sampleHigh 0x5 true).seg_b = !(display sampleLow 0x5 true).seg_b ∧
     (display sampleHigh 0x5 true).seg_c = !(display sampleLow 0x5 true).seg_c ∧
     (display sampleHigh 0x5 true).seg_d = !(display sampleLow 0x5 true).seg_d ∧
     (display sampleHigh 0x5 true).seg_e = !(display sampleLow 0x5 true).seg_e ∧
     (display sampleHigh 0x5 true).seg_f = !(display sampleLow 0x5 true).seg_f ∧
     (display sampleHigh 0x5 true).seg_g = !(display sampleLow 0x5 true).seg_g ∧
     (display sampleHigh 0x5 true).seg_p = !(display sampleLow 0x5 true).seg_p) :=
  ⟨rfl, rfl, C6_polarity_symmetry sampleHigh sampleLow rfl rfl 0x5 true⟩

/-- C7: in `set_segments`, the level a line ends at depends only on that
segment's own lit flag and the polarity: any two calls on drivers with equal
polarity whose arguments agree at segment L leave line L at the same level,
whatever the other seven flags and the prior line states. -/
theorem C7_line_independence (L : Seg) (s1 s2 : EightSegment)
    (hpol : s1.high_on = s2.high_on)
    (a1 b1 c1 d1 e1 f1 g1 p1 a2 b2 c2 d2 e2 f2 g2 p2 : Bool)
    (hL : segLit L a1 b1 c1 d1 e1 f1 g1 p1 =
          segLit L a2 b2 c2 d2 e2 f2 g2 p2) :
    segLevel (set_segments s1 a1 b1 c1 d1 e1 f1 g1 p1) L =
      segLevel (set_segments s2 a2 b2 c2 d2 e2 f2 g2 p2) L := by
  cases L <;> simp [segLit] at hL <;> simp [segLevel, set_segments, hpol, hL]

/-- C7, witness: the independence theorem for line B across two calls that
agree only on the B flag, on two drivers of equal polarity with different
prior line states. -/
theorem C7_witness :
    sampleHigh.high_on = (blank sampleHigh).high_on ∧
    segLit Seg.B true true false false false false false false =
      segLit Seg.B false true true true true true true true ∧
    segLevel
        (set_segments sampleHigh true true false false false false false
          false) Seg.B =
      segLevel
        (set_segments (blank sampleHigh) false true true true true true true
          true) Seg.B :=
  ⟨rfl, rfl,
    C7_line_independence Seg.B sampleHigh (blank sampleHigh) rfl
      true true false false false false false false
      false true true true true true true true rfl⟩

/-- C8: calling `display 0x8 true` twice in succession leaves the driver in
the same final state as calling it once. -/
theorem C8_display_idempotent (s : EightSegment) :
    display (display s 0x8 true) 0x8 true = display s 0x8 true := by
  obtain ⟨h, _, _, _, _, _, _, _, _⟩ := s
  cases h <;> rfl

/-- C9: none of the three operations changes the polarity flag: after
`blank`, `set_segments` or `display` the value of `high_on` equals its value
before the call, for all inputs. -/
theorem C9_polarity_immutable (s : EightSegment)
    (a b c d e f g p : Bool) (n : Nat) (q : Bool) :
    (blank s).high_on = s.high_on ∧
    (set_segments s a b c d e f g p).high_on = s.high_on ∧
    (display s n q).high_on = s.high_on := by
  refine ⟨rfl, rfl, ?_⟩
  rcases ht : digitSegments n with ⟨a', f', b', g', e', c', d'⟩
  simp [display, ht, set_segments]

/-- C10: for every digit value at least 0x10, every decimal-point flag and
every driver state, `display` ends in exactly the state `display 0x8` ends
in — the out-of-range fallback is indistinguishable from the glyph for
0x8. -/
theorem C10_out_of_range_eq_digit8 (s : EightSegment) (n : Nat)
    (hn : 0x10 ≤ n) (p : Bool) :
    display s n p = display s 0x8 p := by
  obtain ⟨k, rfl⟩ := Nat.exists_eq_add_of_le' hn
  rfl

/-- C10, witness: the fallback theorem evaluated at digit 0x10 with the
decimal point on, on a concrete active-low driver. -/
theorem C10_witness :
    (0x10 : Nat) ≤ 0x10 ∧
    display sampleLow 0x10 true = display sampleLow 0x8 true :=
  ⟨by decide, C10_out_of_range_eq_digit8 sampleLow 0x10 (by decide) true⟩
